import Mathlib

/-!
Verification of the gas-mixture composition engine of `experimentlib`
(`experimentlib/data/gas.py`), shallowly embedded in Lean 4.

Numbers are modelled by exact fractions (`Frac`): every constant appearing in
the source is a finite decimal, and the Python code performs only field
arithmetic and comparisons on them, so exact rational arithmetic is a faithful
model of the executed float operations at the precision the specification
claims (tolerances of 1e-12 and coarser).  Strings are modelled as `List Char`
with structural implementations of the string operations the source uses
(`split`, `strip`, `lower`, `replace`), so that every definition evaluates
inside the kernel.
-/

set_option maxRecDepth 8000

deriving instance DecidableEq for Except

namespace GasModel

/-- Exact fraction: integer numerator over natural denominator.  Operations
guard against a zero denominator (treating such a fraction as `0`, matching
the junk value of `Rat` division by zero) and never normalise, so all
operations are plain integer arithmetic and reduce in the kernel. -/
structure Frac where
  num : Int
  den : Nat
deriving DecidableEq, Repr

namespace Frac

/-- Guarded numerator: a fraction with zero denominator behaves as `0`. -/
def rnum (f : Frac) : Int := if f.den = 0 then 0 else f.num

/-- Guarded denominator: always positive. -/
def rden (f : Frac) : Nat := if f.den = 0 then 1 else f.den

/-- The rational value denoted by a `Frac`. -/
def val (f : Frac) : ℚ := (f.num : ℚ) / (f.den : ℚ)

def add (a b : Frac) : Frac := ⟨a.rnum * b.rden + b.rnum * a.rden, a.rden * b.rden⟩

def neg (a : Frac) : Frac := ⟨-a.num, a.den⟩

def sub (a b : Frac) : Frac := add a (neg b)

def mul (a b : Frac) : Frac := ⟨a.rnum * b.rnum, a.rden * b.rden⟩

def inv (a : Frac) : Frac :=
  if a.rnum = 0 then ⟨0, 1⟩ else ⟨Int.sign a.rnum * a.rden, a.rnum.natAbs⟩

def div (a b : Frac) : Frac := mul a (inv b)

def abs (a : Frac) : Frac := ⟨(a.rnum.natAbs : Int), a.rden⟩

def le (a b : Frac) : Prop := a.rnum * (b.rden : Int) ≤ b.rnum * (a.rden : Int)

def lt (a b : Frac) : Prop := a.rnum * (b.rden : Int) < b.rnum * (a.rden : Int)

instance (n : Nat) : OfNat Frac n := ⟨⟨(n : Int), 1⟩⟩

instance : OfScientific Frac :=
  ⟨fun m b e => if b then ⟨(m : Int), 10 ^ e⟩ else ⟨(m : Int) * 10 ^ e, 1⟩⟩

instance (a b : Frac) : Decidable (le a b) := inferInstanceAs (Decidable (_ ≤ _))

instance (a b : Frac) : Decidable (lt a b) := inferInstanceAs (Decidable (_ < _))

theorem rden_pos (f : Frac) : 0 < f.rden := by
  unfold rden
  split
  · exact Nat.one_pos
  · exact Nat.pos_of_ne_zero (by assumption)

theorem rden_ne_zero (f : Frac) : ((f.rden : ℚ)) ≠ 0 := by
  have h := f.rden_pos
  exact Nat.cast_ne_zero.mpr (by omega)

theorem rden_cast_pos (f : Frac) : (0 : ℚ) < (f.rden : ℚ) :=
  Nat.cast_pos.mpr f.rden_pos

/-- The value `val` can always be computed from the guarded numerator and denominator. -/
theorem val_eq (f : Frac) : f.val = (f.rnum : ℚ) / (f.rden : ℚ) := by
  unfold val rnum rden
  by_cases h : f.den = 0 <;> simp [h]

theorem le_iff (a b : Frac) : le a b ↔ a.val ≤ b.val := by
  rw [val_eq, val_eq, div_le_div_iff a.rden_cast_pos b.rden_cast_pos]
  unfold le
  constructor <;> intro h <;> exact_mod_cast h

theorem lt_iff (a b : Frac) : lt a b ↔ a.val < b.val := by
  rw [val_eq, val_eq, div_lt_div_iff a.rden_cast_pos b.rden_cast_pos]
  unfold lt
  constructor <;> intro h <;> exact_mod_cast h

theorem val_add (a b : Frac) : (add a b).val = a.val + b.val := by
  have h : (add a b).val
      = ((a.rnum * b.rden + b.rnum * a.rden : Int) : ℚ) / ((a.rden * b.rden : Nat) : ℚ) := rfl
  rw [h, val_eq a, val_eq b]
  have ha := a.rden_ne_zero
  have hb := b.rden_ne_zero
  push_cast
  field_simp

theorem val_neg (a : Frac) : (neg a).val = -a.val := by
  unfold val neg
  push_cast
  rw [neg_div]

theorem val_sub (a b : Frac) : (sub a b).val = a.val - b.val := by
  unfold sub
  rw [val_add, val_neg, sub_eq_add_neg]

theorem val_mul (a b : Frac) : (mul a b).val = a.val * b.val := by
  have h : (mul a b).val
      = ((a.rnum * b.rnum : Int) : ℚ) / ((a.rden * b.rden : Nat) : ℚ) := rfl
  rw [h, val_eq a, val_eq b]
  push_cast
  rw [div_mul_div_comm]

theorem val_inv (a : Frac) : (inv a).val = (a.val)⁻¹ := by
  unfold inv
  rw [val_eq a]
  by_cases h : a.rnum = 0
  · simp [h, val]
  · rw [if_neg h]
    have hd := a.rden_cast_pos
    rcases lt_trichotomy a.rnum 0 with hn | hn | hn
    · have h1 : Int.sign a.rnum = -1 := Int.sign_eq_neg_one_of_neg hn
      have h2 : (a.rnum.natAbs : ℚ) = -(a.rnum : ℚ) := by
        rw [Int.cast_natAbs]
        exact_mod_cast abs_of_neg hn
      unfold val
      simp only [h1]
      rw [h2]
      push_cast
      rw [inv_div]
      field_simp
    · exact absurd hn h
    · have h1 : Int.sign a.rnum = 1 := Int.sign_eq_one_of_pos hn
      have h2 : (a.rnum.natAbs : ℚ) = (a.rnum : ℚ) := by
        rw [Int.cast_natAbs]
        exact_mod_cast abs_of_pos hn
      unfold val
      simp only [h1]
      rw [h2]
      push_cast
      rw [inv_div]
      field_simp

theorem val_div (a b : Frac) : (div a b).val = a.val / b.val := by
  unfold div
  rw [val_mul, val_inv, div_eq_mul_inv]

theorem val_abs (a : Frac) : (abs a).val = |a.val| := by
  have h : (abs a).val = ((a.rnum.natAbs : Int) : ℚ) / ((a.rden : Nat) : ℚ) := rfl
  rw [h, val_eq a, abs_div]
  rw [Int.cast_natAbs]
  congr 1
  · push_cast
    rfl
  · exact (abs_of_pos a.rden_cast_pos).symm

theorem val_zero : (0 : Frac).val = 0 := by
  show ((0 : Int) : ℚ) / ((1 : Nat) : ℚ) = 0
  norm_num

theorem val_one : (1 : Frac).val = 1 := by
  show ((1 : Int) : ℚ) / ((1 : Nat) : ℚ) = 1
  norm_num

end Frac

/-! ### String model

Strings are modelled as `List Char`; the operations below are structural
implementations of the `str` methods the source uses. -/

/-- Python `str.lower` on a single ASCII character. -/
def lowerChar (c : Char) : Char :=
  if 'A' ≤ c ∧ c ≤ 'Z' then Char.ofNat (c.toNat + 32) else c

/-- Model of `experimentlib.util.storage.Registry._safe_key`:
`str(x).replace(' ', '_').replace('-', '_').lower()`. -/
def safeKey (s : List Char) : List Char :=
  (s.map fun c => if c = ' ' ∨ c = '-' then '_' else c).map lowerChar

/-- Python `str.lower`. -/
def lowerStr (s : List Char) : List Char := s.map lowerChar

/-- Python whitespace characters recognised by `str.strip`. -/
def isSpaceChar (c : Char) : Bool :=
  c == ' ' || c == '\t' || c == '\n' || c == '\r' || c.toNat == 11 || c.toNat == 12

/-- Python `str.strip()`. -/
def stripStr (s : List Char) : List Char :=
  ((s.dropWhile isSpaceChar).reverse.dropWhile isSpaceChar).reverse

/-- Python `str.split(',')` (no collapsing of empty fields). -/
def splitComma : List Char → List (List Char)
  | [] => [[]]
  | c :: rest =>
    match splitComma rest with
    | [] => [[c]]
    | cur :: others => if c = ',' then [] :: cur :: others else (c :: cur) :: others

/-! ### Errors

The error constructors mirror the exception classes of
`experimentlib/data/gas.py` plus the Python built-in exceptions that can
escape the modelled code paths.  In the source, `NegativeQuantityError`
subclasses `CalculationError`, which subclasses `GasError`; `MixingError` and
`UnknownGas` also subclass `GasError`.  `isCalculationError`/`isGasError`
encode the `isinstance` checks induced by that hierarchy. -/

inductive GasErr where
  | gasError
  | calculationError
  | negativeQuantityError
  | mixingError
  | unknownGas
  /-- Model of `experimentlib.data.unit.QuantityParseError` / pint parse failure
  (not part of the `GasError` hierarchy). -/
  | quantityParseError
  /-- Python `KeyError` (raw dict access miss). -/
  | keyError
  /-- Python `AttributeError` (e.g. calling `.strip()` on `None`). -/
  | attributeError
deriving DecidableEq, Repr

/-- Predicate `isinstance(e, CalculationError)` in the source's exception hierarchy. -/
def GasErr.isCalculationError : GasErr → Bool
  | .calculationError => true
  | .negativeQuantityError => true
  | _ => false

/-- Predicate `isinstance(e, GasError)` in the source's exception hierarchy. -/
def GasErr.isGasError : GasErr → Bool
  | .gasError => true
  | .calculationError => true
  | .negativeQuantityError => true
  | .mixingError => true
  | .unknownGas => true
  | _ => false

/-! ### MolecularStructure and GasProperties (gas.py lines 34-83) -/

/-- The `MolecularStructure` enum; `value` carries the MKS structure constant. -/
inductive MolecularStructure where
  | monatomic
  | diatomic
  | triatomic
  | polyatomic
deriving DecidableEq, Repr

def MolecularStructure.value : MolecularStructure → Frac
  | .monatomic => 1.03
  | .diatomic => 1
  | .triatomic => 0.941
  | .polyatomic => 0.88

/-- Model of `GasProperties` (attrs frozen class).  `specific_heat` is in cal/g and
`density` in g/L, stored as the bare magnitudes of the source's quantities. -/
structure GasProperties where
  name : String
  symbol : Option String := none
  molecular_structure : Option MolecularStructure := none
  specific_heat : Option Frac := none
  density : Option Frac := none
  inert : Bool := false
  humid : Bool := false
deriving DecidableEq, Repr

/-! ### The registry (gas.py lines 86-309) -/

def air : GasProperties :=
  { name := "Air", molecular_structure := some .diatomic,
    specific_heat := some 0.24, density := some 1.293, inert := true }

def acetone : GasProperties :=
  { name := "Acetone", symbol := some "(CH_3)_2CO",
    molecular_structure := some .polyatomic,
    specific_heat := some 0.51, density := some 0.21 }

def ammonia : GasProperties :=
  { name := "Ammonia", symbol := some "NH_3",
    molecular_structure := some .polyatomic,
    specific_heat := some 0.492, density := some 0.76 }

def argon : GasProperties :=
  { name := "Argon", symbol := some "Ar",
    molecular_structure := some .monatomic,
    specific_heat := some 0.1244, density := some 1.782, inert := true }

def arsine : GasProperties :=
  { name := "Arsine", molecular_structure := some .polyatomic,
    specific_heat := some 0.1167, density := some 3.478 }

def bromine : GasProperties :=
  { name := "Bromine", symbol := some "BR_2",
    molecular_structure := some .diatomic,
    specific_heat := some 0.0539, density := some 7.13 }

def carbon_dioxide : GasProperties :=
  { name := "Carbon-dioxide", symbol := some "CO_2",
    molecular_structure := some .triatomic,
    specific_heat := some 0.2016, density := some 1.964 }

def carbon_monoxide : GasProperties :=
  { name := "Carbon-monoxide", symbol := some "CO",
    molecular_structure := some .diatomic,
    specific_heat := some 0.2488, density := some 1.25 }

def carbon_tetrachloride : GasProperties :=
  { name := "Carbon-tetrachloride", molecular_structure := some .polyatomic,
    specific_heat := some 0.1655, density := some 6.86 }

def carbon_tetraflouride : GasProperties :=
  { name := "Carbon-tetraflouride", molecular_structure := some .polyatomic,
    specific_heat := some 0.1654, density := some 3.926 }

def chlorine : GasProperties :=
  { name := "Chlorine", symbol := some "Cl_2",
    molecular_structure := some .diatomic,
    specific_heat := some 0.1144, density := some 3.163 }

def cyanogen : GasProperties :=
  { name := "Cyanogen", molecular_structure := some .polyatomic,
    specific_heat := some 0.2613, density := some 2.322 }

def deuterium : GasProperties :=
  { name := "Deuterium", symbol := some "H_2/D_2",
    molecular_structure := some .diatomic,
    specific_heat := some 1.722, density := some 0.1799 }

def ethane : GasProperties :=
  { name := "Ethane", symbol := some "C_2H_6",
    molecular_structure := some .polyatomic,
    specific_heat := some 0.4097, density := some 1.342 }

def fluorine : GasProperties :=
  { name := "Fluorine", symbol := some "F_2",
    molecular_structure := some .diatomic,
    specific_heat := some 0.1873, density := some 1.695 }

def helium : GasProperties :=
  { name := "Helium", symbol := some "He",
    molecular_structure := some .monatomic,
    specific_heat := some 1.241, density := some 0.1786 }

def hexane : GasProperties :=
  { name := "Hexane", symbol := some "C_6H14",
    molecular_structure := some .polyatomic,
    specific_heat := some 0.54, density := some 0.672 }

def hydrogen : GasProperties :=
  { name := "Hydrogen", symbol := some "H_2",
    molecular_structure := some .diatomic,
    specific_heat := some 3.3852, density := some 0.0899 }

def hydrogen_chloride : GasProperties :=
  { name := "Hydrogen-chloride", symbol := some "HCl",
    molecular_structure := some .diatomic,
    specific_heat := some 0.1912, density := some 1.627 }

def hydrogen_fluoride : GasProperties :=
  { name := "Hydrogen-fluoride", symbol := some "HF",
    molecular_structure := some .diatomic,
    specific_heat := some 0.3479, density := some 0.893 }

def methane : GasProperties :=
  { name := "Methane", symbol := some "CH_4",
    molecular_structure := some .polyatomic,
    specific_heat := some 0.5223, density := some 0.716 }

def neon : GasProperties :=
  { name := "Neon", symbol := some "Ne",
    molecular_structure := some .monatomic,
    specific_heat := some 0.246, density := some 0.9 }

def nitrogen : GasProperties :=
  { name := "Nitrogen", symbol := some "N_2",
    molecular_structure := some .diatomic,
    specific_heat := some 0.2485, density := some 1.25, inert := true }

def nitric_oxide : GasProperties :=
  { name := "Nitric-oxide", symbol := some "NO",
    molecular_structure := some .diatomic,
    specific_heat := some 0.2328, density := some 1.339 }

def nitric_oxides : GasProperties :=
  { name := "Nitric-oxides", symbol := some "NO_x" }

def nitrogen_dioxide : GasProperties :=
  { name := "Nitrogen-dioxide", symbol := some "NO_2",
    molecular_structure := some .triatomic,
    specific_heat := some 0.1933, density := some 2.052 }

def nitrous_oxide : GasProperties :=
  { name := "Nitrous-oxide", symbol := some "N_2O",
    molecular_structure := some .triatomic,
    specific_heat := some 0.2088, density := some 1.964 }

def oxygen : GasProperties :=
  { name := "Oxygen", symbol := some "O_2",
    molecular_structure := some .diatomic,
    specific_heat := some 0.2193, density := some 1.427 }

def phosphine : GasProperties :=
  { name := "Phosphine", symbol := some "PH_3",
    molecular_structure := some .polyatomic,
    specific_heat := some 0.2374, density := some 1.517 }

def propane : GasProperties :=
  { name := "Propane", symbol := some "C_3H_8",
    molecular_structure := some .polyatomic,
    specific_heat := some 0.3885, density := some 1.967 }

def propylene : GasProperties :=
  { name := "Propylene", symbol := some "C_3H_6",
    molecular_structure := some .polyatomic,
    specific_heat := some 0.3541, density := some 1.877 }

def sulfur_hexaflouride : GasProperties :=
  { name := "Sulfur Hexaflouride", symbol := some "SF_6",
    molecular_structure := some .polyatomic,
    specific_heat := some 0.1592, density := some 6.516 }

def xenon : GasProperties :=
  { name := "Xenon", symbol := some "Xe",
    molecular_structure := some .monatomic,
    specific_heat := some 0.0378, density := some 5.858 }

def humid_air : GasProperties :=
  { name := "Humid Air", molecular_structure := some .diatomic,
    specific_heat := some 0.24, density := some 1.293,
    inert := true, humid := true }

def humid_argon : GasProperties :=
  { name := "Humid Argon", symbol := some "Ar",
    molecular_structure := some .monatomic,
    specific_heat := some 0.1244, density := some 1.782,
    inert := true, humid := true }

def humid_nitrogen : GasProperties :=
  { name := "Humid Nitrogen", symbol := some "N_2",
    molecular_structure := some .diatomic,
    specific_heat := some 0.2485, density := some 1.25,
    inert := true, humid := true }

/-- The module-level registry, in registration order.  All 36 entries have
distinct safe keys, so first-match lookup coincides with the source's dict
(last-write-wins only matters for duplicate keys). -/
def registry : List GasProperties :=
  [air, acetone, ammonia, argon, arsine, bromine, carbon_dioxide,
   carbon_monoxide, carbon_tetrachloride, carbon_tetraflouride, chlorine,
   cyanogen, deuterium, ethane, fluorine, helium, hexane, hydrogen,
   hydrogen_chloride, hydrogen_fluoride, methane, neon, nitrogen,
   nitric_oxide, nitric_oxides, nitrogen_dioxide, nitrous_oxide, oxygen,
   phosphine, propane, propylene, sulfur_hexaflouride, xenon,
   humid_air, humid_argon, humid_nitrogen]

/-- Model of `Registry.__getitem__` (with `_safe_key` normalisation of both the stored
`registry_key` and the query). -/
def registryLookup (query : List Char) : Option GasProperties :=
  registry.find? fun g => safeKey g.name.data == safeKey query

/-- Model of `Registry.__contains__`. -/
def registryContains (query : List Char) : Bool :=
  (registryLookup query).isSome

/-! ### Component (gas.py lines 316-355) -/

/-- The display unit chosen by `Component.__attrs_post_init__` when it
re-expresses `quantity` for presentation (`pint` units `pct`/`ppm`/`ppb`/
`dimensionless`).  The conversion `.to(units)` does not change the physical
value, so `Component.quantity` below always stores the dimensionless
magnitude and `displayUnit` the chosen presentation unit. -/
inductive ConcUnit where
  | pct
  | ppm
  | ppb
  | dimensionless
deriving DecidableEq, Repr

structure Component where
  quantity : Frac
  displayUnit : ConcUnit
  properties : GasProperties
deriving DecidableEq, Repr

/-- Model of `Component` construction: the attrs converter coerces the input to a
dimensionless quantity and `__attrs_post_init__` rejects negative
concentrations (`NegativeQuantityError`) then picks the display unit by the
magnitude thresholds `1e-4`, `1e-6`, `0`. -/
def Component.make (quantity : Frac) (properties : GasProperties) :
    Except GasErr Component :=
  if Frac.lt quantity 0 then .error .negativeQuantityError
  else
    let magnitude := quantity.abs
    let units : ConcUnit :=
      if Frac.le (1e-4 : Frac) magnitude then .pct
      else if Frac.le (1e-6 : Frac) magnitude then .ppm
      else if Frac.lt 0 magnitude then .ppb
      else .dimensionless
    .ok ⟨quantity, units, properties⟩

/-- Model of `Component.gcf`: `0.3106 * molecular_structure.value /
(density * specific_heat)`.  `none` models the Python exception raised when
a property is missing (`None`). -/
def Component.gcf (c : Component) : Option Frac :=
  match c.properties.molecular_structure, c.properties.density,
      c.properties.specific_heat with
  | some ms, some d, some sh =>
    some (Frac.div (Frac.mul 0.3106 ms.value) (Frac.mul d sh))
  | _, _, _ => none

/-- Model of `Component.__rmul__`: `Component(other * self.quantity, self.properties)`,
which re-runs the full construction validation. -/
def Component.rmul (other : Frac) (c : Component) : Except GasErr Component :=
  Component.make (Frac.mul other c.quantity) c.properties

/-! ### Mixture (gas.py lines 358-541) -/

structure Mixture where
  components : List Component
  balance : Component
deriving DecidableEq, Repr

/-- The sort relation of `__attrs_post_init__`:
`sorted(..., key=lambda x: x.quantity, reverse=True)`, i.e. descending by
concentration. -/
def componentGE (a b : Component) : Prop := Frac.le b.quantity a.quantity

instance : DecidableRel componentGE :=
  fun a b => inferInstanceAs (Decidable (Frac.le b.quantity a.quantity))

/-- The total `balance.quantity + Σ components[i].quantity`, accumulated left to right
as in the source's loop. -/
def totalQuantity (components : List Component) (balance : Component) : Frac :=
  components.foldl (fun acc c => Frac.add acc c.quantity) balance.quantity

/-- Tolerance `1e-12` of the over-100% check. -/
def tolerance : Frac := 1e-12

/-- Model of `Mixture` construction (`__attrs_post_init__`): fail with
`CalculationError` when the overall quantity exceeds 1 by more than `1e-12`,
otherwise store the components sorted descending by quantity (Python's
`sorted` is stable). -/
def Mixture.make (components : List Component) (balance : Component) :
    Except GasErr Mixture :=
  if Frac.lt tolerance (Frac.sub (totalQuantity components balance) 1) then
    .error .calculationError
  else
    .ok ⟨components.insertionSort componentGE, balance⟩

/-- Left-to-right effectful map over `Except`, the evaluation order of the
source's list comprehensions and loops (first exception wins). -/
def mapME (f : α → Except GasErr β) : List α → Except GasErr (List β)
  | [] => .ok []
  | x :: xs => do
    let y ← f x
    let ys ← mapME f xs
    .ok (y :: ys)

/-- Model of `Mixture.__mul__` restricted to a dimensionless scalar (ints are cast to
float; a dimensioned `Quantity` factor raises `CalculationError` before this
point and a non-numeric factor raises `NotImplementedError` — both outside
the numeric path modelled here). -/
def Mixture.mul (m : Mixture) (other : Frac) : Except GasErr Mixture := do
  let scaled ← mapME (Component.rmul other) m.components
  Mixture.make scaled m.balance

/-- Model of `Mixture.auto_balance`: the balance quantity is `1.0` minus each
component's quantity in turn, and the balance `Component` is constructed
(re-validated) before the `Mixture` itself. -/
def Mixture.auto_balance (components : List Component)
    (balance : GasProperties) : Except GasErr Mixture := do
  let balance_quantity :=
    components.foldl (fun acc c => Frac.sub acc c.quantity) (1 : Frac)
  let b ← Component.make balance_quantity balance
  Mixture.make components b

/-- The component-merging dict of `Mixture.__add__`: keyed by `properties`
(insertion-ordered, as Python dicts are), summing quantities on key hits. -/
def mergeComponents (cs : List Component) : List (GasProperties × Frac) :=
  cs.foldl
    (fun acc c =>
      if acc.any fun p => p.1 = c.properties then
        acc.map fun p =>
          if p.1 = c.properties then (p.1, Frac.add p.2 c.quantity) else p
      else acc ++ [(c.properties, c.quantity)])
    []

/-- Model of `Mixture.__add__` with a `Mixture` argument: identical balance gas
required (`MixingError` otherwise), merged components re-run through
`auto_balance`. -/
def Mixture.add (m other : Mixture) : Except GasErr Mixture :=
  if m.balance.properties ≠ other.balance.properties then .error .mixingError
  else do
    let merged := mergeComponents (m.components ++ other.components)
    let comps ← mapME (fun p => Component.make p.2 p.1) merged
    Mixture.auto_balance comps m.balance.properties

/-! ### Parsing (gas.py lines 366, 488-541) -/

def isWordChar (c : Char) : Bool := c.isAlphanum || c == '_'

def isUnitChar (c : Char) : Bool := c == '%' || isWordChar c

def isNameChar (c : Char) : Bool := isWordChar c || isSpaceChar c || c == '-'

def digitsToNat (l : List Char) : Nat :=
  l.foldl (fun acc c => 10 * acc + (c.toNat - '0'.toNat)) 0

/-- Numeric value of regex group 1, `digits ++ opt('.' ++ digits)`. -/
def numValue (intPart fracPart : List Char) : Frac :=
  Frac.add ⟨(digitsToNat intPart : Int), 1⟩
    ⟨(digitsToNat fracPart : Int), 10 ^ fracPart.length⟩

/-- Matcher for `_GAS_CONCENTRATION_PATTERN = re.compile(
r'^([\d]+\.?[\d]*)[ ]?([%\w]+) ([\w\s-]+)')` (a `match`, anchored at the
start only).  Returns the integer digits and fraction digits of group 1, the
unit token (group 2) and the gas name (group 3).  The regex is deterministic
on its character classes: `[%\w]` excludes the space, so the optional space
and the literal separator space admit no backtracking choice. -/
def matchConcentrationPattern (s : List Char) :
    Option (List Char × List Char × List Char × List Char) :=
  let ds := s.takeWhile Char.isDigit
  let rest := s.dropWhile Char.isDigit
  if ds.isEmpty then none
  else
    let (fs, rest) :=
      match rest with
      | '.' :: r => (r.takeWhile Char.isDigit, r.dropWhile Char.isDigit)
      | r => ([], r)
    let rest :=
      match rest with
      | ' ' :: r => r
      | r => r
    let us := rest.takeWhile isUnitChar
    let rest := rest.dropWhile isUnitChar
    if us.isEmpty then none
    else
      match rest with
      | ' ' :: r =>
        let ns := r.takeWhile isNameChar
        if ns.isEmpty then none else some (ds, fs, us, ns)
      | _ => none

/-- Dimensionless scale factor of a pint unit token, as the source's unit
registry defines them (`percent = count / 100 = pct`, `%` preprocessed to
`pct`, `ppm = count / 1e6`, `ppb = count / 1e9`, `kppm` = kilo-ppm).
`none` models pint's `UndefinedUnitError`. -/
def unitFactor (u : List Char) : Option Frac :=
  if u == "%".data ∨ u == "pct".data ∨ u == "percent".data then some ⟨1, 100⟩
  else if u == "ppm".data then some ⟨1, 1000000⟩
  else if u == "ppb".data then some ⟨1, 1000000000⟩
  else if u == "kppm".data then some ⟨1, 1000⟩
  else none

/-- One token of `Mixture.from_str`'s loop body: regex match (fallback: bare
gas name at 100%), quantity construction, registry lookup
(`UnknownGas` on miss), `Component` construction. -/
def parseGasToken (gas_str : List Char) : Except GasErr Component := do
  let (conc, gas_name) ←
    match matchConcentrationPattern gas_str with
    | some (ds, fs, us, ns) =>
      match unitFactor us with
      | some f => .ok (Frac.mul (numValue ds fs) f, stripStr ns)
      | none => (.error .quantityParseError : Except GasErr (Frac × List Char))
    | none => .ok ((1 : Frac), gas_str)
  match registryLookup (lowerStr gas_name) with
  | some gas => Component.make conc gas
  | none => .error .unknownGas

/-- Model of `Mixture.from_str` after splitting: parse every token, then treat the
last token as the balance gas and `auto_balance` the preceding ones. -/
def Mixture.fromTokens (toks : List (List Char)) : Except GasErr Mixture := do
  let gases ← mapME parseGasToken toks
  match gases.getLast? with
  | some last => Mixture.auto_balance gases.dropLast last.properties
  | none => .error .gasError

/-- Model of `Mixture.from_str`: split on commas, strip each token, parse. -/
def Mixture.from_str (s : String) : Except GasErr Mixture :=
  Mixture.fromTokens ((splitComma s.data).map stripStr)

/-- pint parse of a concentration string from a structured mapping
(`unit.converter()` → `unit.parse(x, dimensionless)`): a number, optionally
followed by a unit token.  `quantityParseError` models pint's parse and
dimensionality failures. -/
def parseQuantityStr (s : List Char) : Except GasErr Frac :=
  let l := stripStr s
  let ds := l.takeWhile Char.isDigit
  let rest := l.dropWhile Char.isDigit
  if ds.isEmpty then .error .quantityParseError
  else
    let (fs, rest) :=
      match rest with
      | '.' :: r => (r.takeWhile Char.isDigit, r.dropWhile Char.isDigit)
      | r => ([], r)
    let rest := rest.dropWhile isSpaceChar
    if rest.isEmpty then .ok (numValue ds fs)
    else
      match unitFactor rest with
      | some f => .ok (Frac.mul (numValue ds fs) f)
      | none => .error .quantityParseError

/-- The body of `Mixture.from_dict`'s loop, threading the `balance` and
`components` locals.  Note the source's condition
`concentration.strip().lower() == 'balance' or concentration is None`
evaluates `concentration.strip()` first, so a `None` concentration raises
`AttributeError` before the `is None` test is reached. -/
def fromDictLoop : List (String × Option String) → Option GasProperties →
    List Component → Except GasErr (Option GasProperties × List Component)
  | [], balance, components => .ok (balance, components)
  | (gas_name, concentration) :: rest, balance, components => do
    let gas ←
      match registryLookup gas_name.data with
      | some g => .ok g
      | none => (.error .keyError : Except GasErr GasProperties)
    match concentration with
    | none => .error .attributeError
    | some conc =>
      if lowerStr (stripStr conc.data) == "balance".data then
        match balance with
        | some _ => .error .gasError
        | none => fromDictLoop rest (some gas) components
      else do
        let q ← parseQuantityStr conc.data
        let c ← Component.make q gas
        fromDictLoop rest balance (components ++ [c])

/-- Model of `Mixture.from_dict`: iterate the (ordered) mapping, collect trace
components and the single balance gas, then `auto_balance`. -/
def Mixture.from_dict (gas_mapping : List (String × Option String)) :
    Except GasErr Mixture := do
  let (balance, components) ← fromDictLoop gas_mapping none []
  match balance with
  | none => .error .gasError
  | some b => Mixture.auto_balance components b

/-- Sum of the component fractions plus the balance fraction of a `Mixture`,
as a rational value.  This is the quantity the specification's composition
invariant bounds. -/
def Mixture.totalVal (m : Mixture) : ℚ :=
  m.balance.quantity.val + (m.components.map fun c => c.quantity.val).sum

/-! ### Helper lemmas -/

theorem Frac.lt_zero_iff (q : Frac) : Frac.lt q 0 ↔ q.val < 0 := by
  rw [Frac.lt_iff, Frac.val_zero]

theorem tolerance_val : tolerance.val = (1e-12 : ℚ) := by
  have h : tolerance = ⟨1, 1000000000000⟩ := by decide
  rw [h]
  show ((1 : Int) : ℚ) / ((1000000000000 : Nat) : ℚ) = (1e-12 : ℚ)
  norm_num

theorem val_foldl_add (cs : List Component) (init : Frac) :
    (cs.foldl (fun acc c => Frac.add acc c.quantity) init).val
      = init.val + (cs.map fun c => c.quantity.val).sum := by
  induction cs generalizing init with
  | nil => simp
  | cons c cs ih =>
    simp only [List.foldl_cons, List.map_cons, List.sum_cons, ih,
      Frac.val_add]
    ring

theorem val_foldl_sub (cs : List Component) (init : Frac) :
    (cs.foldl (fun acc c => Frac.sub acc c.quantity) init).val
      = init.val - (cs.map fun c => c.quantity.val).sum := by
  induction cs generalizing init with
  | nil => simp
  | cons c cs ih =>
    simp only [List.foldl_cons, List.map_cons, List.sum_cons, ih,
      Frac.val_sub]
    ring

theorem totalQuantity_val (cs : List Component) (b : Component) :
    (totalQuantity cs b).val
      = b.quantity.val + (cs.map fun c => c.quantity.val).sum :=
  val_foldl_add cs b.quantity

theorem Component.make_ok_iff (q : Frac) (p : GasProperties) :
    (∃ c, Component.make q p = .ok c) ↔ 0 ≤ q.val := by
  unfold Component.make
  by_cases h : Frac.lt q 0
  · rw [if_pos h]
    constructor
    · rintro ⟨c, hc⟩
      exact absurd hc (by simp)
    · intro h2
      exact absurd ((Frac.lt_zero_iff q).mp h) (not_lt.mpr h2)
  · rw [if_neg h]
    constructor
    · intro _
      exact not_lt.mp ((Frac.lt_zero_iff q).not.mp h)
    · intro _
      exact ⟨_, rfl⟩

theorem Component.make_error_iff (q : Frac) (p : GasProperties) (e : GasErr) :
    Component.make q p = .error e ↔ e = .negativeQuantityError ∧ q.val < 0 := by
  unfold Component.make
  by_cases h : Frac.lt q 0
  · rw [if_pos h]
    constructor
    · intro he
      rw [Except.error.injEq] at he
      exact ⟨he.symm, (Frac.lt_zero_iff q).mp h⟩
    · rintro ⟨rfl, _⟩
      rfl
  · rw [if_neg h]
    constructor
    · intro he
      exact absurd he (by simp)
    · rintro ⟨rfl, h2⟩
      exact absurd h2 ((Frac.lt_zero_iff q).not.mp h)

theorem Component.make_ok_elim {q : Frac} {p : GasProperties} {c : Component}
    (h : Component.make q p = .ok c) : c.quantity = q ∧ c.properties = p := by
  unfold Component.make at h
  by_cases hlt : Frac.lt q 0
  · rw [if_pos hlt] at h
    exact absurd h (by simp)
  · rw [if_neg hlt] at h
    simp only [Except.ok.injEq] at h
    subst h
    exact ⟨rfl, rfl⟩

theorem Mixture.make_succeeds_iff (cs : List Component) (b : Component) :
    (∃ m, Mixture.make cs b = .ok m)
      ↔ (totalQuantity cs b).val - 1 ≤ (1e-12 : ℚ) := by
  unfold Mixture.make
  by_cases h : Frac.lt tolerance (Frac.sub (totalQuantity cs b) 1)
  · rw [if_pos h]
    rw [Frac.lt_iff, tolerance_val, Frac.val_sub, Frac.val_one] at h
    constructor
    · rintro ⟨m, hm⟩
      exact absurd hm (by simp)
    · intro h2
      exact absurd h (not_lt.mpr h2)
  · rw [if_neg h]
    rw [Frac.lt_iff, tolerance_val, Frac.val_sub, Frac.val_one, not_lt] at h
    exact ⟨fun _ => h, fun _ => ⟨_, rfl⟩⟩

theorem Mixture.make_fails_iff (cs : List Component) (b : Component)
    (e : GasErr) :
    Mixture.make cs b = .error e
      ↔ e = .calculationError ∧ (1e-12 : ℚ) < (totalQuantity cs b).val - 1 := by
  unfold Mixture.make
  by_cases h : Frac.lt tolerance (Frac.sub (totalQuantity cs b) 1)
  · rw [if_pos h]
    rw [Frac.lt_iff, tolerance_val, Frac.val_sub, Frac.val_one] at h
    constructor
    · intro he
      rw [Except.error.injEq] at he
      exact ⟨he.symm, h⟩
    · rintro ⟨rfl, _⟩
      rfl
  · rw [if_neg h]
    rw [Frac.lt_iff, tolerance_val, Frac.val_sub, Frac.val_one, not_lt] at h
    constructor
    · intro he
      exact absurd he (by simp)
    · rintro ⟨rfl, h2⟩
      exact absurd h2 (not_lt.mpr h)

theorem Mixture.make_ok_sorted {cs : List Component} {b : Component}
    {m : Mixture} (h : Mixture.make cs b = .ok m) :
    m = ⟨cs.insertionSort componentGE, b⟩ := by
  unfold Mixture.make at h
  by_cases hlt : Frac.lt tolerance (Frac.sub (totalQuantity cs b) 1)
  · rw [if_pos hlt] at h
    exact absurd h (by simp)
  · rw [if_neg hlt] at h
    simp only [Except.ok.injEq] at h
    exact h.symm

theorem exceptBind_ok (y : β) (f : β → Except GasErr γ) :
    (Bind.bind (Except.ok y) f : Except GasErr γ) = f y := rfl

theorem exceptBind_error (e : GasErr) (f : β → Except GasErr γ) :
    (Bind.bind (Except.error e) f : Except GasErr γ) = .error e := rfl

theorem mapME_ok_forall₂ {f : α → Except GasErr β} :
    ∀ {l : List α} {ys : List β}, mapME f l = .ok ys
      → List.Forall₂ (fun x y => f x = .ok y) l ys := by
  intro l
  induction l with
  | nil =>
    intro ys h
    unfold mapME at h
    simp only [Except.ok.injEq] at h
    subst h
    exact List.Forall₂.nil
  | cons x xs ih =>
    intro ys h
    unfold mapME at h
    cases hx : f x with
    | error e =>
      rw [hx, exceptBind_error] at h
      exact Except.noConfusion h
    | ok y =>
      rw [hx, exceptBind_ok] at h
      cases hxs : mapME f xs with
      | error e =>
        rw [hxs, exceptBind_error] at h
        exact Except.noConfusion h
      | ok ys' =>
        rw [hxs, exceptBind_ok] at h
        simp only [Except.ok.injEq] at h
        subst h
        exact List.Forall₂.cons hx (ih hxs)

theorem mapME_ok_of_forall {f : α → Except GasErr β} :
    ∀ {l : List α}, (∀ x ∈ l, ∃ y, f x = .ok y)
      → ∃ ys, mapME f l = .ok ys := by
  intro l
  induction l with
  | nil => intro _; exact ⟨[], rfl⟩
  | cons x xs ih =>
    intro h
    obtain ⟨y, hy⟩ := h x (List.mem_cons_self x xs)
    obtain ⟨ys, hys⟩ := ih fun z hz => h z (List.mem_cons_of_mem x hz)
    exact ⟨y :: ys, by unfold mapME; rw [hy, hys]; rfl⟩

theorem mapME_cons (f : α → Except GasErr β) (x : α) (xs : List α) :
    mapME f (x :: xs) = (do
      let y ← f x
      let ys ← mapME f xs
      .ok (y :: ys)) := rfl

theorem mapME_concat (f : α → Except GasErr β) (l : List α) (x : α) :
    mapME f (l ++ [x]) = (do
      let ys ← mapME f l
      let y ← f x
      .ok (ys ++ [y])) := by
  induction l with
  | nil =>
    rw [List.nil_append, mapME_cons]
    cases hfx : f x <;> rfl
  | cons z zs ih =>
    rw [List.cons_append, mapME_cons, ih, mapME_cons]
    cases hfz : f z with
    | error e => rfl
    | ok y =>
      rw [exceptBind_ok]
      cases mapME f zs with
      | error e => rfl
      | ok ys =>
        cases f x <;> rfl

theorem Mixture.auto_balance_ok_elim {cs : List Component}
    {props : GasProperties} {m : Mixture}
    (h : Mixture.auto_balance cs props = .ok m) :
    m.balance.quantity.val = 1 - (cs.map fun c => c.quantity.val).sum
      ∧ m.balance.properties = props
      ∧ m.components = cs.insertionSort componentGE := by
  simp only [Mixture.auto_balance] at h
  cases hb : Component.make
      (cs.foldl (fun acc c => Frac.sub acc c.quantity) (1 : Frac)) props with
  | error e =>
    rw [hb, exceptBind_error] at h
    exact Except.noConfusion h
  | ok b =>
    rw [hb, exceptBind_ok] at h
    obtain ⟨hq, hp⟩ := Component.make_ok_elim hb
    have hm := Mixture.make_ok_sorted h
    subst hm
    refine ⟨?_, hp, rfl⟩
    rw [hq, val_foldl_sub, Frac.val_one]

/-- Sample concentrations used by the concrete scenarios: 1% hydrogen. -/
def hydrogenPct : Component := ⟨⟨1, 100⟩, .pct, hydrogen⟩

/-- 99% air, the balance produced by `auto_balance` in the scenarios. -/
def airBalance : Component := ⟨⟨99, 100⟩, .pct, air⟩

/-- The mixture denoted by `"1% hydrogen, air"`. -/
def mixHydrogenAir : Mixture := ⟨[hydrogenPct], airBalance⟩

/-! ### Claims -/

/-- C1: `Mixture` construction fails with a `CalculationError` exactly when
the balance fraction plus the sum of the component fractions exceeds `1.0`
by more than `1e-12`, and succeeds otherwise; hence every successfully
constructed `Mixture` satisfies `Σ components + balance ≤ 1.0 + 1e-12`, and
`Mixture.from_str "101% hydrogen, air"` fails with a `CalculationError`
(concretely its `NegativeQuantityError` subclass). -/
theorem mixture_over100_calculation_error :
    (∀ (cs : List Component) (b : Component),
        (∃ e, Mixture.make cs b = .error e ∧ e.isCalculationError = true)
          ↔ 1 + (1e-12 : ℚ)
              < b.quantity.val + (cs.map fun c => c.quantity.val).sum)
    ∧ (∀ (cs : List Component) (b : Component),
        b.quantity.val + (cs.map fun c => c.quantity.val).sum ≤ 1 + (1e-12 : ℚ)
          → ∃ m, Mixture.make cs b = .ok m)
    ∧ (∀ (cs : List Component) (b : Component) (m : Mixture),
        Mixture.make cs b = .ok m → m.totalVal ≤ 1 + (1e-12 : ℚ))
    ∧ (∃ e, Mixture.from_str "101% hydrogen, air" = .error e
        ∧ e.isCalculationError = true) := by
  refine ⟨?_, ?_, ?_, ?_⟩
  · intro cs b
    constructor
    · rintro ⟨e, he, _⟩
      have h := (Mixture.make_fails_iff cs b e).mp he
      rw [totalQuantity_val] at h
      linarith [h.2]
    · intro h
      refine ⟨.calculationError, (Mixture.make_fails_iff cs b _).mpr ⟨rfl, ?_⟩, rfl⟩
      rw [totalQuantity_val]
      linarith
  · intro cs b h
    refine (Mixture.make_succeeds_iff cs b).mpr ?_
    rw [totalQuantity_val]
    linarith
  · intro cs b m h
    have hb := (Mixture.make_succeeds_iff cs b).mp ⟨m, h⟩
    rw [totalQuantity_val] at hb
    have hm := Mixture.make_ok_sorted h
    subst hm
    have hperm : ((cs.insertionSort componentGE).map fun c => c.quantity.val).Perm
        (cs.map fun c => c.quantity.val) :=
      (List.perm_insertionSort componentGE cs).map _
    unfold Mixture.totalVal
    rw [hperm.sum_eq]
    linarith
  · exact ⟨.negativeQuantityError, by decide, rfl⟩

/-- C1 witness: the composition invariant instantiated at the concrete
mixture `"1% hydrogen, air"`. -/
theorem mixture_over100_calculation_error_witness :
    Mixture.totalVal mixHydrogenAir ≤ 1 + (1e-12 : ℚ) :=
  mixture_over100_calculation_error.2.2.1 [hydrogenPct] airBalance
    mixHydrogenAir (by decide)

/-- C5: `Mixture.auto_balance` produces (validation permitting) a `Mixture`
whose balance quantity is `1.0` minus the sum of the given component
fractions and whose balance species is the given one; concretely,
`auto_balance [Component(0.01, hydrogen)] air` has balance quantity `0.99`
(as a dimensionless fraction) and exactly one trace component. -/
theorem auto_balance_spec :
    (∀ (cs : List Component) (props : GasProperties) (m : Mixture),
        Mixture.auto_balance cs props = .ok m
          → m.balance.quantity.val = 1 - (cs.map fun c => c.quantity.val).sum
            ∧ m.balance.properties = props)
    ∧ (∃ c m, Component.make 0.01 hydrogen = .ok c
        ∧ Mixture.auto_balance [c] air = .ok m
        ∧ m.balance.quantity.val = 99 / 100
        ∧ m.components.length = 1) := by
  constructor
  · intro cs props m h
    exact ⟨(Mixture.auto_balance_ok_elim h).1, (Mixture.auto_balance_ok_elim h).2.1⟩
  · refine ⟨hydrogenPct, mixHydrogenAir, by decide, by decide, ?_, by decide⟩
    show Frac.val ⟨99, 100⟩ = 99 / 100
    norm_num [Frac.val]

/-- C5 witness: the general balance equation instantiated at
`auto_balance [1% hydrogen] air`. -/
theorem auto_balance_spec_witness :
    mixHydrogenAir.balance.quantity.val
        = 1 - ([hydrogenPct].map fun c => c.quantity.val).sum
    ∧ mixHydrogenAir.balance.properties = air :=
  auto_balance_spec.1 [hydrogenPct] air mixHydrogenAir (by decide)

/-- C7: constructing a `Component` with a negative fraction fails with
`NegativeQuantityError`; scaling a `Component` re-runs full construction
(`__rmul__` builds `Component(other * quantity, properties)`), so scaling to
a negative fraction fails with `NegativeQuantityError` exactly as direct
construction would. -/
theorem component_negative_quantity :
    (∀ (q : Frac) (p : GasProperties), q.val < 0
        → Component.make q p = .error .negativeQuantityError)
    ∧ (∀ (k : Frac) (c : Component),
        Component.rmul k c = Component.make (Frac.mul k c.quantity) c.properties)
    ∧ (∀ (k : Frac) (c : Component), k.val * c.quantity.val < 0
        → Component.rmul k c = .error .negativeQuantityError) := by
  refine ⟨?_, fun _ _ => rfl, ?_⟩
  · intro q p h
    exact (Component.make_error_iff q p _).mpr ⟨rfl, h⟩
  · intro k c h
    unfold Component.rmul
    refine (Component.make_error_iff _ _ _).mpr ⟨rfl, ?_⟩
    rw [Frac.val_mul]
    exact h

/-- Helper for C3/C10: the values produced by a successful `mapME` of
`Component.rmul k`. -/
theorem rmul_forall₂_vals {k : Frac} {cs scaled : List Component}
    (h : List.Forall₂ (fun c c2 => Component.rmul k c = .ok c2) cs scaled) :
    scaled.map (fun c => (c.quantity.val, c.properties))
      = cs.map (fun c => (k.val * c.quantity.val, c.properties)) := by
  induction h with
  | nil => rfl
  | cons h1 _ ih =>
    obtain ⟨hq, hp⟩ := Component.make_ok_elim h1
    simp only [List.map_cons, ih]
    rw [hq, hp, Frac.val_mul]

theorem rmul_forall₂_quantities {k : Frac} {cs scaled : List Component}
    (h : List.Forall₂ (fun c c2 => Component.rmul k c = .ok c2) cs scaled) :
    scaled.map (fun c => c.quantity.val)
      = cs.map (fun c => k.val * c.quantity.val) := by
  have h2 := congrArg (List.map Prod.fst) (rmul_forall₂_vals h)
  simpa [List.map_map, Function.comp] using h2

/-- The mixture `0.5 × mixHydrogenAir`: hydrogen scaled to 0.5%, balance kept
at the original 99%. -/
def mixHydrogenAirHalf : Mixture := ⟨[⟨⟨5, 1000⟩, .pct, hydrogen⟩], airBalance⟩

theorem frac_val_half : (0.5 : Frac).val = (1 : ℚ) / 2 := by
  have h : (0.5 : Frac) = ⟨5, 10⟩ := by decide
  rw [h]
  show ((5 : Int) : ℚ) / ((10 : Nat) : ℚ) = (1 : ℚ) / 2
  norm_num

/-- C4: `Mixture.fromTokens` (the core of `from_str`) always treats the last
token as the balance gas and discards that token's own parsed concentration:
replacing the last token by any token resolving to the same gas gives the
same mixture.  Concretely, `from_str "1% hydrogen, air"` yields one
component (hydrogen at fraction 0.01) and balance air at 0.99. -/
theorem from_str_last_token_is_balance :
    (∀ (toks : List (List Char)) (t1 t2 : List Char) (c1 c2 : Component),
        parseGasToken t1 = .ok c1 → parseGasToken t2 = .ok c2
          → c1.properties = c2.properties
          → Mixture.fromTokens (toks ++ [t1]) = Mixture.fromTokens (toks ++ [t2]))
    ∧ (∃ m, Mixture.from_str "1% hydrogen, air" = .ok m
        ∧ m.components.map (fun c => (c.quantity.val, c.properties))
            = [((0.01 : ℚ), hydrogen)]
        ∧ m.balance.properties = air
        ∧ m.balance.quantity.val = (0.99 : ℚ)) := by
  constructor
  · intro toks t1 t2 c1 c2 h1 h2 hp
    unfold Mixture.fromTokens
    rw [mapME_concat, mapME_concat, h1, h2]
    cases mapME parseGasToken toks with
    | error e => rfl
    | ok gs =>
      simp only [exceptBind_ok, List.getLast?_concat, List.dropLast_concat, hp]
  · refine ⟨mixHydrogenAir, by decide, ?_, by decide, ?_⟩
    · show [((⟨1, 100⟩ : Frac).val, hydrogen)] = [((0.01 : ℚ), hydrogen)]
      norm_num [Frac.val]
    · show Frac.val ⟨99, 100⟩ = (0.99 : ℚ)
      norm_num [Frac.val]

/-- C4 witness: the last-token rule instantiated with the balance tokens
`"air"` and `"99% air"` (same gas, different literal concentration). -/
theorem from_str_last_token_is_balance_witness :
    Mixture.fromTokens [['a', 'i', 'r']]
      = Mixture.fromTokens [['9', '9', '%', ' ', 'a', 'i', 'r']] :=
  from_str_last_token_is_balance.1 [] ['a', 'i', 'r']
    ['9', '9', '%', ' ', 'a', 'i', 'r'] ⟨⟨1, 1⟩, .pct, air⟩
    ⟨⟨99, 100⟩, .pct, air⟩ (by decide) (by decide) rfl

/-- C3: scaling a mixture multiplies every component's quantity by the
scalar while the stored balance `Component` is passed through unchanged; no
rebalancing happens, so scaling `"1% hydrogen, air"` by 0.5 gives a total
strictly below 1.0 without any error. -/
theorem mul_scales_components_balance_unchanged :
    (∀ (m : Mixture) (k : Frac) (m2 : Mixture),
        Mixture.mul m k = .ok m2
          → m2.balance = m.balance
            ∧ (m2.components.map fun c => (c.quantity.val, c.properties)).Perm
                (m.components.map fun c => (k.val * c.quantity.val, c.properties)))
    ∧ (Mixture.mul mixHydrogenAir 0.5 = .ok mixHydrogenAirHalf
        ∧ mixHydrogenAirHalf.balance = mixHydrogenAir.balance
        ∧ mixHydrogenAirHalf.totalVal < 1) := by
  constructor
  · intro m k m2 h
    unfold Mixture.mul at h
    cases hs : mapME (Component.rmul k) m.components with
    | error e =>
      rw [hs, exceptBind_error] at h
      exact Except.noConfusion h
    | ok scaled =>
      rw [hs, exceptBind_ok] at h
      have hm := Mixture.make_ok_sorted h
      subst hm
      refine ⟨rfl, ?_⟩
      rw [← rmul_forall₂_vals (mapME_ok_forall₂ hs)]
      exact (List.perm_insertionSort componentGE scaled).map _
  · refine ⟨by decide, by decide, ?_⟩
    show Frac.val ⟨99, 100⟩ + (Frac.val ⟨5, 1000⟩ + 0) < 1
    norm_num [Frac.val]

/-- C3 witness: the general scaling law applied to `0.5 × mixHydrogenAir`. -/
theorem mul_scales_components_balance_unchanged_witness :
    mixHydrogenAirHalf.balance = mixHydrogenAir.balance
    ∧ (mixHydrogenAirHalf.components.map fun c => (c.quantity.val, c.properties)).Perm
        (mixHydrogenAir.components.map
          fun c => ((0.5 : Frac).val * c.quantity.val, c.properties)) :=
  mul_scales_components_balance_unchanged.1 mixHydrogenAir 0.5
    mixHydrogenAirHalf (by decide)

/-- C10: scaling a valid mixture by any scalar in `[0, 1]` always succeeds:
the scaled component fractions stay non-negative and, with the balance kept
unchanged, the new total never exceeds the original one, so the over-100%
check still passes. -/
theorem mul_unit_interval_always_succeeds :
    ∀ (m : Mixture) (k : Frac),
      0 ≤ k.val → k.val ≤ 1
      → (∀ c ∈ m.components, 0 ≤ c.quantity.val)
      → m.totalVal ≤ 1 + (1e-12 : ℚ)
      → ∃ m2, Mixture.mul m k = .ok m2 := by
  intro m k hk0 hk1 hc ht
  obtain ⟨scaled, hs⟩ := @mapME_ok_of_forall Component Component
    (Component.rmul k) m.components
    (fun c hcm => (Component.make_ok_iff (Frac.mul k c.quantity) c.properties).mpr
      (by rw [Frac.val_mul]; exact mul_nonneg hk0 (hc c hcm)))
  have hmap := rmul_forall₂_quantities (mapME_ok_forall₂ hs)
  unfold Mixture.mul
  rw [hs, exceptBind_ok]
  refine (Mixture.make_succeeds_iff scaled m.balance).mpr ?_
  rw [totalQuantity_val, hmap]
  have hsum : (m.components.map fun c => k.val * c.quantity.val).sum
      ≤ (m.components.map fun c => c.quantity.val).sum :=
    List.sum_le_sum fun c hcc => mul_le_of_le_one_left (hc c hcc) hk1
  unfold Mixture.totalVal at ht
  linarith

/-- C10 witness: scaling `"1% hydrogen, air"` by 0.5 succeeds. -/
theorem mul_unit_interval_always_succeeds_witness :
    ∃ m2, Mixture.mul mixHydrogenAir (0.5 : Frac) = .ok m2 :=
  mul_unit_interval_always_succeeds mixHydrogenAir 0.5
    (by rw [frac_val_half]; norm_num)
    (by rw [frac_val_half]; norm_num)
    (by
      intro c hcm
      have h : c = hydrogenPct := List.mem_singleton.mp hcm
      subst h
      norm_num [hydrogenPct, Frac.val])
    (by
      show Frac.val ⟨99, 100⟩ + (Frac.val ⟨1, 100⟩ + 0) ≤ 1 + (1e-12 : ℚ)
      norm_num [Frac.val])

theorem frac_val_03106 : (0.3106 : Frac).val = (0.3106 : ℚ) := by
  have h : (0.3106 : Frac) = ⟨3106, 10000⟩ := by decide
  rw [h]
  show ((3106 : Int) : ℚ) / ((10000 : Nat) : ℚ) = (0.3106 : ℚ)
  norm_num

/-- The component `Component(1, air)` (100% air). -/
def airFull : Component := ⟨⟨1, 1⟩, .pct, air⟩

/-- The component `Component(1, helium)`. -/
def heliumFull : Component := ⟨⟨1, 1⟩, .pct, helium⟩

/-- The component `Component(1, ammonia)`. -/
def ammoniaFull : Component := ⟨⟨1, 1⟩, .pct, ammonia⟩

/-- C6: `Component.gcf` equals
`0.3106 × structureConstant / (density × specificHeat)` whenever the
properties carry the three constants, and with the registry's data the gcf
of air, helium and ammonia are within 0.01 of 1.0, 1.45 and 0.73
respectively. -/
theorem gcf_formula_and_reference_values :
    (∀ (c : Component) (ms : MolecularStructure) (d sh : Frac),
        c.properties.molecular_structure = some ms
          → c.properties.density = some d
          → c.properties.specific_heat = some sh
          → ∃ g, Component.gcf c = some g
              ∧ g.val = (0.3106 : ℚ) * ms.value.val / (d.val * sh.val))
    ∧ (Component.make 1 air = .ok airFull
        ∧ ∃ g, Component.gcf airFull = some g ∧ |g.val - 1| ≤ 1 / 100)
    ∧ (Component.make 1 helium = .ok heliumFull
        ∧ ∃ g, Component.gcf heliumFull = some g ∧ |g.val - 1.45| ≤ 1 / 100)
    ∧ (Component.make 1 ammonia = .ok ammoniaFull
        ∧ ∃ g, Component.gcf ammoniaFull = some g ∧ |g.val - 0.73| ≤ 1 / 100) := by
  refine ⟨?_, ⟨by decide, ⟨⟨310600000, 310320000⟩, by decide, ?_⟩⟩,
    ⟨by decide, ⟨⟨3199180000000, 2216426000000⟩, by decide, ?_⟩⟩,
    ⟨by decide, ⟨⟨27332800000, 37392000000⟩, by decide, ?_⟩⟩⟩
  · intro c ms d sh h1 h2 h3
    unfold Component.gcf
    rw [h1, h2, h3]
    refine ⟨_, rfl, ?_⟩
    rw [Frac.val_div, Frac.val_mul, Frac.val_mul, frac_val_03106]
  · rw [abs_le]
    constructor <;> norm_num [Frac.val]
  · rw [abs_le]
    constructor <;> norm_num [Frac.val]
  · rw [abs_le]
    constructor <;> norm_num [Frac.val]

/-- C6 witness: the gcf formula instantiated at `Component(1, air)` with the
registry's constants for air. -/
theorem gcf_formula_and_reference_values_witness :
    ∃ g, Component.gcf airFull = some g
      ∧ g.val = (0.3106 : ℚ) * MolecularStructure.diatomic.value.val
          / ((1.293 : Frac).val * (0.24 : Frac).val) :=
  gcf_formula_and_reference_values.1 airFull .diatomic 1.293 0.24
    (by decide) (by decide) (by decide)

/-- C7 witness: `-0.01` is rejected, both directly and through scaling
`1% hydrogen` by `-1`. -/
theorem component_negative_quantity_witness :
    Component.make ⟨-1, 100⟩ air = .error .negativeQuantityError
    ∧ Component.rmul ⟨-1, 1⟩ hydrogenPct = .error .negativeQuantityError :=
  ⟨component_negative_quantity.1 ⟨-1, 100⟩ air (by norm_num [Frac.val]),
    component_negative_quantity.2.2 ⟨-1, 1⟩ hydrogenPct
      (by norm_num [Frac.val, hydrogenPct])⟩

instance : IsTotal Component componentGE :=
  ⟨fun a b => by
    unfold componentGE
    rw [Frac.le_iff, Frac.le_iff]
    exact le_total _ _⟩

instance : IsTrans Component componentGE :=
  ⟨fun a b c hab hbc => by
    unfold componentGE at hab hbc ⊢
    rw [Frac.le_iff] at hab hbc ⊢
    exact le_trans hbc hab⟩

/-- C8: the components of every successfully constructed `Mixture` are
sorted in descending order of quantity, and the sort is stable: for every
quantity value, the components carrying it appear in the same order as in
the input list. -/
theorem components_sorted_descending_stable :
    ∀ (cs : List Component) (b : Component) (m : Mixture),
      Mixture.make cs b = .ok m
      → m.components.Sorted (fun a c => c.quantity.val ≤ a.quantity.val)
        ∧ ∀ q : ℚ, m.components.filter (fun c => decide (c.quantity.val = q))
            = cs.filter (fun c => decide (c.quantity.val = q)) := by
  intro cs b m h
  have hm := Mixture.make_ok_sorted h
  subst hm
  constructor
  · exact List.Pairwise.imp (fun hab => (Frac.le_iff _ _).mp hab)
      (List.sorted_insertionSort componentGE cs)
  · intro q
    have hpair : (cs.filter fun c => decide (c.quantity.val = q)).Pairwise
        componentGE := by
      apply List.pairwise_of_forall_mem_list
      intro a ha c hcmem
      have ha2 := List.of_mem_filter ha
      have hc2 := List.of_mem_filter hcmem
      simp only [decide_eq_true_eq] at ha2 hc2
      unfold componentGE
      rw [Frac.le_iff, ha2, hc2]
    have h1 : List.Sublist (cs.filter fun c => decide (c.quantity.val = q))
        (cs.insertionSort componentGE) :=
      List.sublist_insertionSort hpair (List.filter_sublist cs)
    have h2 := h1.filter fun c => decide (c.quantity.val = q)
    rw [List.filter_filter] at h2
    have h3 : List.Sublist (cs.filter fun c => decide (c.quantity.val = q))
        ((cs.insertionSort componentGE).filter
          fun c => decide (c.quantity.val = q)) := by
      simpa [Bool.and_self] using h2
    have h4 : ((cs.insertionSort componentGE).filter
          fun c => decide (c.quantity.val = q)).Perm
        (cs.filter fun c => decide (c.quantity.val = q)) :=
      (List.perm_insertionSort componentGE cs).filter _
    exact (h3.eq_of_length h4.length_eq.symm).symm

/-- C8 witness: the sort invariant at the concrete mixture
`"1% hydrogen, air"`. -/
theorem components_sorted_descending_stable_witness :
    mixHydrogenAir.components.Sorted
      (fun a c => c.quantity.val ≤ a.quantity.val) :=
  (components_sorted_descending_stable [hydrogenPct] airBalance
    mixHydrogenAir (by decide)).1

/-- The component `1% methane` and the mixture `"1% methane, air"`. -/
def methanePct : Component := ⟨⟨1, 100⟩, .pct, methane⟩

def mixMethaneAir : Mixture := ⟨[methanePct], airBalance⟩

/-- The mixture `"1% hydrogen, nitrogen"`. -/
def mixHydrogenNitrogen : Mixture := ⟨[hydrogenPct], ⟨⟨99, 100⟩, .pct, nitrogen⟩⟩

/-- The mixture `0.25 × mixHydrogenAir` (balance kept at 99%). -/
def mixHydrogenAirQuarter : Mixture :=
  ⟨[⟨⟨25, 10000⟩, .pct, hydrogen⟩], airBalance⟩

/-- The mixture `0.75 × mixMethaneAir` (balance kept at 99%). -/
def mixMethaneAirThreeQuarters : Mixture :=
  ⟨[⟨⟨75, 10000⟩, .pct, methane⟩], airBalance⟩

/-- The mixture `0.25 × mixHydrogenAir + 0.75 × mixMethaneAir`. -/
def mixedScenarioB : Mixture :=
  ⟨[⟨⟨75, 10000⟩, .pct, methane⟩, ⟨⟨25, 10000⟩, .pct, hydrogen⟩],
    ⟨⟨99000000, 100000000⟩, .pct, air⟩⟩

/-- C2: adding two mixtures fails with `MixingError` when the balance gas
properties differ; with identical balance species the components are merged
by properties (quantities summed) and re-run through `auto_balance`;
concretely `0.25 × "1% hydrogen, air" + 0.75 × "1% methane, air"` gives
exactly two components — methane at 0.0075 before hydrogen at 0.0025 — with
balance air at 0.99. -/
theorem add_mixtures_merge_or_mixing_error :
    (∀ (m other : Mixture), m.balance.properties ≠ other.balance.properties
        → Mixture.add m other = .error .mixingError)
    ∧ (∀ (m other : Mixture), m.balance.properties = other.balance.properties
        → Mixture.add m other = (do
            let comps ← mapME (fun p => Component.make p.2 p.1)
              (mergeComponents (m.components ++ other.components))
            Mixture.auto_balance comps m.balance.properties))
    ∧ (Mixture.from_str "1% hydrogen, air" = .ok mixHydrogenAir
        ∧ Mixture.from_str "1% methane, air" = .ok mixMethaneAir
        ∧ Mixture.mul mixHydrogenAir 0.25 = .ok mixHydrogenAirQuarter
        ∧ Mixture.mul mixMethaneAir 0.75 = .ok mixMethaneAirThreeQuarters
        ∧ Mixture.add mixHydrogenAirQuarter mixMethaneAirThreeQuarters
            = .ok mixedScenarioB
        ∧ mixedScenarioB.components.map (fun c => (c.quantity.val, c.properties))
            = [((0.0075 : ℚ), methane), ((0.0025 : ℚ), hydrogen)]
        ∧ mixedScenarioB.balance.properties = air
        ∧ mixedScenarioB.balance.quantity.val = (0.99 : ℚ)) := by
  refine ⟨?_, ?_, by decide, by decide, by decide, by decide, by decide,
    ?_, by decide, ?_⟩
  · intro m other h
    unfold Mixture.add
    rw [if_pos h]
  · intro m other h
    unfold Mixture.add
    rw [if_neg (not_not_intro h)]
  · show [((⟨75, 10000⟩ : Frac).val, methane), ((⟨25, 10000⟩ : Frac).val, hydrogen)]
        = [((0.0075 : ℚ), methane), ((0.0025 : ℚ), hydrogen)]
    norm_num [Frac.val]
  · show Frac.val ⟨99000000, 100000000⟩ = (0.99 : ℚ)
    norm_num [Frac.val]

/-- C2 witness: Scenario D — mixing `"1% hydrogen, air"` with
`"1% hydrogen, nitrogen"` fails with `MixingError`. -/
theorem add_mixtures_merge_or_mixing_error_witness :
    Mixture.add mixHydrogenAir mixHydrogenNitrogen = .error .mixingError :=
  add_mixtures_merge_or_mixing_error.1 mixHydrogenAir mixHydrogenNitrogen
    (by decide)

/-- C9: in `Mixture.from_dict`, an entry designates the balance gas only via
the literal case-insensitive string `"balance"`; a `None` concentration does
NOT designate the balance — the source evaluates `concentration.strip()`
before its `is None` test, so it raises `AttributeError`.  Zero designators
and duplicate designators fail with `GasError`, and otherwise the parsed
components are fed to `auto_balance`. -/
theorem from_dict_balance_designation :
    Mixture.from_dict [("air", none)] = .error .attributeError
    ∧ Mixture.from_dict [("hydrogen", some "1 %")] = .error .gasError
    ∧ Mixture.from_dict [("hydrogen", some "balance"), ("air", some "Balance ")]
        = .error .gasError
    ∧ Mixture.from_dict [("hydrogen", some "1 %"), ("air", some "balance")]
        = .ok mixHydrogenAir := by
  refine ⟨by decide, by decide, by decide, by decide⟩

end GasModel




